import Mathlib

/-!
Verification development for the `alx-backend-graphql_crm` repository: a
shallow embedding in Lean 4 of the CRM data model, the four mutations of
`crm/schema.py` (CreateCustomer, BulkCreateCustomers, CreateProduct,
CreateOrder), the filtered/sorted list resolvers, the weekly report
aggregate of `crm/tasks.py`, and the background jobs of `crm/cron.py` and
`crm/cron_jobs/send_order_reminders.py`.

Conventions of the embedding:
* the relational store is a `State` record of in-memory lists; every
  mutation is a pure function `State → input → State × result`;
* fixed-point decimal amounts (`Decimal` columns, always carrying two
  decimal places in this code base) are represented exactly as an integer
  count of hundredths, so decimal addition is exact integer addition and
  no binary floating point is involved;
* Python string operations are re-implemented structurally over the
  character list of a `String` so that all definitions evaluate inside the
  kernel;
* the store-level uniqueness race (`IntegrityError` raised on `save()`)
  is modelled by an explicit boolean oracle passed to the mutation;
* network calls of background jobs are modelled by an `Except` value: the
  fault the transport raised, or the decoded response.
-/

namespace Crm

/-- Fixed-point decimal amount, represented exactly as an integer count of
hundredths (`Decimal("999.99")` is `99999`); addition of such amounts is
exact, never binary floating point. -/
abbrev Decimal := Int

/-! ### Character-list string helpers (Python `str` operations) -/

/-- `prefixB p h` is true when `p` is a prefix of character list `h`. -/
def prefixB : List Char → List Char → Bool
  | [], _ => true
  | _ :: _, [] => false
  | p :: ps, h :: hs => p == h && prefixB ps hs

/-- `substrB p h` is true when `p` occurs contiguously inside `h`
(Python `p in h`). -/
def substrB : List Char → List Char → Bool
  | p, [] => prefixB p []
  | p, h :: hs => prefixB p (h :: hs) || substrB p hs

/-- Lower-cased copy of a string (Python `str.lower`). -/
def lowerStr (t : String) : String := String.mk (t.data.map Char.toLower)

/-- Case-insensitive containment test, Django `icontains`. -/
def icontains (hay pat : String) : Bool :=
  substrB (pat.data.map Char.toLower) (hay.data.map Char.toLower)

/-- `startswith`, Django `startswith` lookup. -/
def startsWithB (hay pat : String) : Bool := prefixB pat.data hay.data

/-- Split a character list at every occurrence of `c` (Python `str.split(c)`:
the result always has one more part than there are separators). -/
def splitChar (c : Char) : List Char → List (List Char)
  | [] => [[]]
  | x :: xs =>
    let r := splitChar c xs
    if x == c then [] :: r
    else
      match r with
      | [] => [[x]]
      | y :: ys => (x :: y) :: ys

/-- Code-point lexicographic `≤` on character lists, as Python compares
strings. -/
def lexLe : List Char → List Char → Bool
  | [], _ => true
  | _ :: _, [] => false
  | a :: as, b :: bs =>
    if a.toNat < b.toNat then true
    else if b.toNat < a.toNat then false
    else lexLe as bs

/-- Python `str` ordering used by `sorted(...)`. -/
def strLe (a b : String) : Bool := lexLe a.data b.data

/-- Insertion step of a stable sort. -/
def insertBy (le : α → α → Bool) (x : α) : List α → List α
  | [] => [x]
  | y :: ys => if le x y then x :: y :: ys else y :: insertBy le x ys

/-- Stable insertion sort; on lists of pairwise-distinct strings it returns
exactly Python's `sorted(...)`. -/
def sortBy (le : α → α → Bool) : List α → List α
  | [] => []
  | x :: xs => insertBy le x (sortBy le xs)

/-- `sorted(...)` on strings. -/
def sortStrings (l : List String) : List String := sortBy strLe l

/-- Python `", ".join(l)`. -/
def commaJoin : List String → String
  | [] => ""
  | [x] => x
  | x :: y :: xs => x ++ ", " ++ commaJoin (y :: xs)

/-! ### Data model (`crm/models.py` rows as read back from the store) -/

/-- A persisted `Customer` row. -/
structure Customer where
  id : String
  name : String
  email : String
  phone : Option String
  createdAt : Nat
deriving DecidableEq, Repr

/-- A persisted `Product` row; `price` is a fixed-point decimal. -/
structure Product where
  id : String
  name : String
  price : Decimal
  stock : Int
  createdAt : Nat
deriving DecidableEq, Repr

/-- A persisted `Order` row together with its many-to-many product links
(`productIds`) as established by `order.products.set(...)`. -/
structure Order where
  id : String
  customerId : String
  productIds : List String
  totalAmount : Decimal
  orderDate : Int
  createdAt : Nat
deriving DecidableEq, Repr

/-- The relational store: all persisted rows plus the primary-key counter
used for newly created rows. -/
structure State where
  customers : List Customer
  products : List Product
  orders : List Order
  nextId : Nat
deriving DecidableEq, Repr

/-! ### Validation (`full_clean`), modelled from the spec -/

/-- Syntactic email validity. Modelled from the spec: `crm/models.py` (the
field validators run by Django's `full_clean`) is not among the reviewed
sources; the spec requires "valid email syntax". One `@` separating two
non-empty parts, the domain containing a dot with non-empty labels. -/
def emailValidB (e : String) : Bool :=
  match splitChar '@' e.data with
  | [l, d] =>
    !l.isEmpty && !d.isEmpty &&
      (match splitChar '.' d with
       | [_] => false
       | parts => parts.all (fun p => !p.isEmpty))
  | _ => false

/-- Accepted phone syntax. Modelled from the spec: `+<digits>` or a
`digits-digits-digits` style pattern. -/
def phoneValidB (p : String) : Bool :=
  match p.data with
  | '+' :: rest => !rest.isEmpty && rest.all Char.isDigit
  | cs =>
    match splitChar '-' cs with
    | [a, b, c] =>
      !a.isEmpty && a.all Char.isDigit &&
        (!b.isEmpty && b.all Char.isDigit) &&
        (!c.isEmpty && c.all Char.isDigit)
    | _ => false

/-- Modelled from the spec: customer field validation run by `full_clean`
(`crm/models.py` is not among the reviewed sources). Name required, email
syntactically valid, phone — if given — matching an accepted pattern; each
failure yields a field-scoped `(field, message)` pair, in field order. -/
def customerFullClean (name email : String) (phone : Option String) :
    List (String × String) :=
  (if name = "" then [("name", "This field cannot be blank.")] else []) ++
    (if emailValidB email then [] else [("email", "Enter a valid email address.")]) ++
    (match phone with
     | none => []
     | some p => if phoneValidB p then [] else [("phone", "Enter a valid phone number.")])

/-- Modelled from the spec: product field validation run by `full_clean`
(`crm/models.py` is not among the reviewed sources): name required. The
numeric checks on price and stock are done by the mutation itself before
this runs. -/
def productFullClean (name : String) : List (String × String) :=
  if name = "" then [("name", "This field cannot be blank.")] else []

/-- `f"{field}: {message}"` formatting of one validation error. -/
def fmtErr (fe : String × String) : String := fe.1 ++ ": " ++ fe.2

/-! ### Mutations (`crm/schema.py`) -/

/-- Input to `CreateCustomer` / one row of `BulkCreateCustomers`. -/
structure CreateCustomerInput where
  name : String
  email : String
  phone : Option String
deriving DecidableEq, Repr

/-- Python `input.phone or None`: an empty string collapses to `None`. -/
def phoneOrNone : Option String → Option String
  | some "" => none
  | p => p

/-- `Customer.objects.filter(email__iexact=email).exists()`. -/
def emailExists (s : State) (email : String) : Bool :=
  s.customers.any (fun c => lowerStr c.email == lowerStr email)

/-- Result shape of `CreateCustomer`. -/
structure CreateCustomerResult where
  customer : Option Customer
  message : String
  errors : List String
deriving DecidableEq, Repr

/-- `CreateCustomer.mutate`. `integrityFail` is the store's uniqueness-race
oracle: when true, `save()` raises `IntegrityError`. `now` is the creation
timestamp the store assigns. -/
def createCustomer (s : State) (input : CreateCustomerInput)
    (integrityFail : Bool) (now : Nat) : State × CreateCustomerResult :=
  if emailExists s input.email then
    (s, ⟨none, "Failed", ["Email already exists"]⟩)
  else
    let errs := customerFullClean input.name input.email (phoneOrNone input.phone)
    if errs = [] then
      if integrityFail then
        (s, ⟨none, "Failed", ["Email already exists"]⟩)
      else
        let c : Customer :=
          ⟨toString s.nextId, input.name, input.email, phoneOrNone input.phone, now⟩
        (⟨s.customers ++ [c], s.products, s.orders, s.nextId + 1⟩,
         ⟨some c, "Customer created", []⟩)
    else
      (s, ⟨none, "Failed", errs.map fmtErr⟩)

/-- One iteration of the `BulkCreateCustomers.mutate` loop at index `idx`:
returns the updated store, the created customer (if the row succeeded) and
the indexed error strings the row contributed. -/
def processRow (s : State) (idx : Nat) (row : CreateCustomerInput)
    (integrityFail : Bool) (now : Nat) :
    State × Option Customer × List String :=
  if emailExists s row.email then
    (s, none, ["[" ++ toString idx ++ "] " ++ ("Email already exists: " ++ row.email)])
  else
    let errs := customerFullClean row.name row.email (phoneOrNone row.phone)
    if errs = [] then
      if integrityFail then
        (s, none, ["[" ++ toString idx ++ "] " ++ ("Email already exists: " ++ row.email)])
      else
        let c : Customer :=
          ⟨toString s.nextId, row.name, row.email, phoneOrNone row.phone, now⟩
        (⟨s.customers ++ [c], s.products, s.orders, s.nextId + 1⟩, some c, [])
    else
      (s, none, errs.map (fun fe => "[" ++ toString idx ++ "] " ++ fmtErr fe))

/-- The `BulkCreateCustomers.mutate` loop from index `idx` on: each element
commits on its own (`transaction.atomic` wraps a single `save()`), successes
are accumulated in input order, errors in input order. `oracle idx` tells
whether the store raises `IntegrityError` for the row at `idx`. -/
def bulkGo (oracle : Nat → Bool) (now : Nat) :
    State → Nat → List CreateCustomerInput → State × List Customer × List String
  | s, _, [] => (s, [], [])
  | s, idx, row :: rows =>
    let r1 := processRow s idx row (oracle idx) now
    let r2 := bulkGo oracle now r1.1 (idx + 1) rows
    (r2.1,
     (match r1.2.1 with
      | some c => c :: r2.2.1
      | none => r2.2.1),
     r1.2.2 ++ r2.2.2)

/-- `BulkCreateCustomers.mutate`. -/
def bulkCreateCustomers (s : State) (rows : List CreateCustomerInput)
    (oracle : Nat → Bool) (now : Nat) : State × List Customer × List String :=
  bulkGo oracle now s 0 rows

/-- Input to `CreateProduct`. The GraphQL `Float` price is modelled as
`Option Decimal`: `some q` is a value whose `Decimal(str(price))`
conversion-and-comparison succeeds with fixed-point value `q`; `none` is a
value (such as a NaN) for which that step raises, landing in the
`except` branch. -/
structure CreateProductInput where
  name : String
  price : Option Decimal
  stock : Option Int
deriving DecidableEq, Repr

/-- `CreateProduct.mutate`. -/
def createProduct (s : State) (input : CreateProductInput) (now : Nat) :
    State × Option Product × List String :=
  let priceProblems :=
    match input.price with
    | some q => if q ≤ 0 then ["price must be > 0"] else []
    | none => ["price must be a valid number"]
  let stock := input.stock.getD 0
  let stockProblems := if stock < 0 then ["stock must be >= 0"] else []
  let problems := priceProblems ++ stockProblems
  if problems = [] then
    match input.price with
    | some q =>
      let errs := productFullClean input.name
      if errs = [] then
        let p : Product := ⟨toString s.nextId, input.name, q, stock, now⟩
        (⟨s.customers, s.products ++ [p], s.orders, s.nextId + 1⟩, some p, [])
      else
        (s, none, errs.map fmtErr)
    | none => (s, none, problems)
  else
    (s, none, problems)

/-- Input to `CreateOrder`; identifiers are opaque strings. -/
structure CreateOrderInput where
  customerId : String
  productIds : List String
  orderDate : Option Int
deriving DecidableEq, Repr

/-- `Product.objects.filter(pk__in=pids)`: each stored row whose primary key
is listed, each at most once, in store order. -/
def resolvedProducts (s : State) (pids : List String) : List Product :=
  s.products.filter (fun p => pids.contains p.id)

/-- `sum((p.price for p in products), Decimal("0.00"))`. -/
def orderTotal (products : List Product) : Decimal :=
  (products.map (fun p => p.price)).foldl (· + ·) 0

/-- `CreateOrder.mutate`. `now` is the current time used when `orderDate` is
omitted; `createdNow` the created-at timestamp the store assigns. -/
def createOrder (s : State) (input : CreateOrderInput) (now : Int)
    (createdNow : Nat) : State × Option Order × List String :=
  match s.customers.find? (fun c => c.id == input.customerId) with
  | none => (s, none, ["Invalid customer ID: " ++ input.customerId])
  | some customer =>
    if input.productIds.isEmpty then
      (s, none, ["At least one product must be selected"])
    else
      let products := resolvedProducts s input.productIds
      let missing :=
        (input.productIds.filter (fun i => !products.any (fun p => p.id == i))).dedup
      if missing.isEmpty then
        let odt := input.orderDate.getD now
        let o : Order :=
          ⟨toString s.nextId, customer.id, products.map (fun p => p.id),
           orderTotal products, odt, createdNow⟩
        (⟨s.customers, s.products, s.orders ++ [o], s.nextId + 1⟩, some o, [])
      else
        (s, none, ["Invalid product ID(s): " ++ commaJoin (sortStrings missing)])

/-! ### Filtered / sorted resolvers (`Query.resolve_all_*` in `crm/schema.py`) -/

/-- `CustomerFilterInput`: every field optional. -/
structure CustomerFilterArgs where
  nameIcontains : Option String
  emailIcontains : Option String
  createdAtGte : Option Nat
  createdAtLte : Option Nat
  phonePattern : Option String
deriving DecidableEq, Repr

/-- `ProductFilterInput`. -/
structure ProductFilterArgs where
  nameIcontains : Option String
  priceGte : Option Decimal
  priceLte : Option Decimal
  stockGte : Option Int
  stockLte : Option Int
deriving DecidableEq, Repr

/-- `OrderFilterInput`. -/
structure OrderFilterArgs where
  totalAmountGte : Option Decimal
  totalAmountLte : Option Decimal
  orderDateGte : Option Int
  orderDateLte : Option Int
  customerName : Option String
  productName : Option String
  productId : Option String
deriving DecidableEq, Repr

/-- Python truthiness gate for an optional string filter value:
`if filter.get(key):` skips both an absent key and an empty string. -/
def truthyStr : Option String → Option String
  | none => none
  | some v => if v = "" then none else some v

/-- The `CUSTOMER_ORDERABLE` safelist. -/
def CUSTOMER_ORDERABLE : List String :=
  ["name", "-name", "email", "-email", "created_at", "-created_at"]

/-- The `PRODUCT_ORDERABLE` safelist. -/
def PRODUCT_ORDERABLE : List String :=
  ["name", "-name", "price", "-price", "stock", "-stock", "created_at", "-created_at"]

/-- The `ORDER_ORDERABLE` safelist. -/
def ORDER_ORDERABLE : List String :=
  ["order_date", "-order_date", "total_amount", "-total_amount", "created_at", "-created_at"]

/-- `qs.order_by(key)` comparator for customers. -/
def customerLeBy (k : String) (a b : Customer) : Bool :=
  match k with
  | "name" => strLe a.name b.name
  | "-name" => strLe b.name a.name
  | "email" => strLe a.email b.email
  | "-email" => strLe b.email a.email
  | "created_at" => decide (a.createdAt ≤ b.createdAt)
  | "-created_at" => decide (b.createdAt ≤ a.createdAt)
  | _ => true

/-- `qs.order_by(key)` comparator for products. -/
def productLeBy (k : String) (a b : Product) : Bool :=
  match k with
  | "name" => strLe a.name b.name
  | "-name" => strLe b.name a.name
  | "price" => decide (a.price ≤ b.price)
  | "-price" => decide (b.price ≤ a.price)
  | "stock" => decide (a.stock ≤ b.stock)
  | "-stock" => decide (b.stock ≤ a.stock)
  | "created_at" => decide (a.createdAt ≤ b.createdAt)
  | "-created_at" => decide (b.createdAt ≤ a.createdAt)
  | _ => true

/-- `qs.order_by(key)` comparator for orders. -/
def orderLeBy (k : String) (a b : Order) : Bool :=
  match k with
  | "order_date" => decide (a.orderDate ≤ b.orderDate)
  | "-order_date" => decide (b.orderDate ≤ a.orderDate)
  | "total_amount" => decide (a.totalAmount ≤ b.totalAmount)
  | "-total_amount" => decide (b.totalAmount ≤ a.totalAmount)
  | "created_at" => decide (a.createdAt ≤ b.createdAt)
  | "-created_at" => decide (b.createdAt ≤ a.createdAt)
  | _ => true

/-- `Query.resolve_all_customers`: apply each set filter field (AND), then
sort only when the key is on the safelist. -/
def resolveAllCustomers (s : State) (f : Option CustomerFilterArgs)
    (orderBy : Option String) : List Customer :=
  let qs := s.customers
  let qs :=
    match f with
    | none => qs
    | some fl =>
      let qs :=
        match truthyStr fl.nameIcontains with
        | some v => qs.filter (fun c => icontains c.name v)
        | none => qs
      let qs :=
        match truthyStr fl.emailIcontains with
        | some v => qs.filter (fun c => icontains c.email v)
        | none => qs
      let qs :=
        match fl.createdAtGte with
        | some d => qs.filter (fun c => decide (d ≤ c.createdAt))
        | none => qs
      let qs :=
        match fl.createdAtLte with
        | some d => qs.filter (fun c => decide (c.createdAt ≤ d))
        | none => qs
      match truthyStr fl.phonePattern with
      | some v =>
        qs.filter (fun c =>
          match c.phone with
          | some p => startsWithB p v
          | none => false)
      | none => qs
  match orderBy with
  | some k => if CUSTOMER_ORDERABLE.contains k then sortBy (customerLeBy k) qs else qs
  | none => qs

/-- `Query.resolve_all_products`. -/
def resolveAllProducts (s : State) (f : Option ProductFilterArgs)
    (orderBy : Option String) : List Product :=
  let qs := s.products
  let qs :=
    match f with
    | none => qs
    | some fl =>
      let qs :=
        match truthyStr fl.nameIcontains with
        | some v => qs.filter (fun p => icontains p.name v)
        | none => qs
      let qs :=
        match fl.priceGte with
        | some v => qs.filter (fun p => decide (v ≤ p.price))
        | none => qs
      let qs :=
        match fl.priceLte with
        | some v => qs.filter (fun p => decide (p.price ≤ v))
        | none => qs
      let qs :=
        match fl.stockGte with
        | some v => qs.filter (fun p => decide (v ≤ p.stock))
        | none => qs
      match fl.stockLte with
      | some v => qs.filter (fun p => decide (p.stock ≤ v))
      | none => qs
  match orderBy with
  | some k => if PRODUCT_ORDERABLE.contains k then sortBy (productLeBy k) qs else qs
  | none => qs

/-- The products linked to an order, read through the many-to-many table. -/
def linkedProducts (s : State) (o : Order) : List Product :=
  s.products.filter (fun p => o.productIds.contains p.id)

/-- `qs.filter(products__<pred>).distinct()`: the SQL join produces one row
per matching linked product, then `DISTINCT` collapses duplicates. -/
def filterJoinDistinct (s : State) (qs : List Order) (pred : Product → Bool) :
    List Order :=
  (qs.flatMap (fun o => ((linkedProducts s o).filter pred).map (fun _ => o))).dedup

/-- `Query.resolve_all_orders`. -/
def resolveAllOrders (s : State) (f : Option OrderFilterArgs)
    (orderBy : Option String) : List Order :=
  let qs := s.orders
  let qs :=
    match f with
    | none => qs
    | some fl =>
      let qs :=
        match fl.totalAmountGte with
        | some v => qs.filter (fun o => decide (v ≤ o.totalAmount))
        | none => qs
      let qs :=
        match fl.totalAmountLte with
        | some v => qs.filter (fun o => decide (o.totalAmount ≤ v))
        | none => qs
      let qs :=
        match fl.orderDateGte with
        | some d => qs.filter (fun o => decide (d ≤ o.orderDate))
        | none => qs
      let qs :=
        match fl.orderDateLte with
        | some d => qs.filter (fun o => decide (o.orderDate ≤ d))
        | none => qs
      let qs :=
        match truthyStr fl.customerName with
        | some v =>
          qs.filter (fun o =>
            match s.customers.find? (fun c => c.id == o.customerId) with
            | some c => icontains c.name v
            | none => false)
        | none => qs
      let qs :=
        match truthyStr fl.productName with
        | some v => filterJoinDistinct s qs (fun p => icontains p.name v)
        | none => qs
      match truthyStr fl.productId with
      | some v => filterJoinDistinct s qs (fun p => p.id == v)
      | none => qs
  match orderBy with
  | some k => if ORDER_ORDERABLE.contains k then sortBy (orderLeBy k) qs else qs
  | none => qs

/-! ### Weekly report aggregate (`crm/tasks.py`) and background jobs -/

/-- One order row of the report query response; `totalAmount` is `some q`
when `float(val)` coercion succeeds and `none` when it raises (a
non-numeric serialization artifact), in which case the row is skipped. -/
structure ReportOrder where
  totalAmount : Option Decimal
deriving DecidableEq, Repr

/-- The revenue accumulation loop of `generate_crm_report`: start from zero
and add each coercible `totalAmount`, skipping rows whose coercion fails. -/
def reportRevenue (orders : List ReportOrder) : Decimal :=
  orders.foldl
    (fun acc o =>
      match o.totalAmount with
      | some v => acc + v
      | none => acc)
    0

/-- The aggregate the report line carries. -/
structure Report where
  totalCustomers : Nat
  totalOrders : Nat
  totalRevenue : Decimal
deriving DecidableEq, Repr

/-- The aggregate computation of `generate_crm_report` on a successfully
fetched response (`customers` carries one id per returned customer). -/
def generateCrmReport (customers : List String) (orders : List ReportOrder) :
    Report :=
  ⟨customers.length, orders.length, reportRevenue orders⟩

/-- Outcome of one background-job run: the lines appended to its log file
and the exception it let escape to its caller, if any. -/
structure JobOutcome where
  logLines : List String
  raised : Option String
deriving DecidableEq, Repr

/-- `log_crm_heartbeat` in `crm/cron.py`: the transport result is `ok` with
the decoded `hello` field, or `error` with the exception name. -/
def logCrmHeartbeat (ts : String) (res : Except String (Option String)) :
    JobOutcome :=
  let gqlStatus :=
    match res with
    | Except.ok (some h) =>
      if h = "Hello, GraphQL!" then " | GraphQL: OK" else " | GraphQL: Unexpected response"
    | Except.ok none => " | GraphQL: Unexpected response"
    | Except.error e => " | GraphQL: ERR " ++ e
  ⟨[ts ++ " CRM is alive" ++ gqlStatus], none⟩

/-- Decoded `updateLowStockProducts` payload: message and the restocked
products as (name, stock) pairs. -/
structure LowStockPayload where
  message : Option String
  products : List (String × Int)
deriving DecidableEq, Repr

/-- `update_low_stock` in `crm/cron.py`. -/
def updateLowStock (ts : String) (res : Except String LowStockPayload) :
    JobOutcome :=
  match res with
  | Except.error e => ⟨["[" ++ ts ++ "] ERROR: " ++ e], none⟩
  | Except.ok payload =>
    let message := payload.message.getD "Done."
    match payload.products with
    | [] => ⟨["[" ++ ts ++ "] No low-stock products to restock. (" ++ message ++ ")"], none⟩
    | ps =>
      ⟨ps.map (fun p => "[" ++ ts ++ "] Restocked: " ++ p.1 ++ " -> stock=" ++ toString p.2),
       none⟩

/-- `generate_crm_report` in `crm/tasks.py` as a job: on success it logs the
report line, on any transport fault it logs an error line; either way it
returns (the whole body is inside `try`/`except`). -/
def generateCrmReportJob (ts : String)
    (res : Except String (List String × List ReportOrder)) : JobOutcome :=
  match res with
  | Except.error e => ⟨[ts ++ " - Report ERROR: " ++ e], none⟩
  | Except.ok d =>
    let r := generateCrmReport d.1 d.2
    ⟨[ts ++ " - Report: " ++ toString r.totalCustomers ++ " customers, " ++
        toString r.totalOrders ++ " orders, " ++ toString r.totalRevenue ++ " revenue"],
     none⟩

/-- Outcome of the order-reminder script, which also writes to stderr. -/
structure ReminderOutcome where
  logLines : List String
  stderrLines : List String
  raised : Option String
deriving DecidableEq, Repr

/-- `crm/cron_jobs/send_order_reminders.py`: `main()` runs the query with no
surrounding `try`; the `__main__` wrapper catches, prints `ERROR: ...` to
stderr, and re-raises. An edge is (order id, customer email). -/
def sendOrderReminders (ts : String)
    (res : Except String (List (String × String))) : ReminderOutcome :=
  match res with
  | Except.error e => ⟨[], ["ERROR: " ++ e], some e⟩
  | Except.ok edges =>
    ⟨edges.map (fun ed => "[" ++ ts ++ "] OrderID=" ++ ed.1 ++ " -> " ++ ed.2), [], none⟩

/-! ### Helper lemmas for `CreateOrder` -/

/-- The product ids of a `CreateOrder` request that resolve to no stored
product, as a deduplicated list (Python's `set(ids) - set(found)`). -/
def missingIds (s : State) (pids : List String) : List String :=
  (pids.filter (fun i => !s.products.any (fun p => p.id == i))).dedup

lemma customer_found_of_any (s : State) (cid : String)
    (h : s.customers.any (fun c => c.id == cid) = true) :
    ∃ c, s.customers.find? (fun c => c.id == cid) = some c ∧ c.id = cid := by
  have h2 : (s.customers.find? (fun c => c.id == cid)).isSome := by
    rw [List.find?_isSome]
    obtain ⟨c, hc, hp⟩ := List.any_eq_true.mp h
    exact ⟨c, hc, hp⟩
  obtain ⟨c, hc⟩ := Option.isSome_iff_exists.mp h2
  have hp := List.find?_some hc
  simp only [] at hp
  exact ⟨c, hc, eq_of_beq hp⟩

lemma resolvedProducts_any (s : State) (pids : List String) (i : String)
    (hi : i ∈ pids) :
    (resolvedProducts s pids).any (fun p => p.id == i) =
      s.products.any (fun p => p.id == i) := by
  unfold resolvedProducts
  rw [List.any_filter]
  cases hb : s.products.any (fun p => p.id == i) with
  | false =>
    rw [List.any_eq_false] at hb ⊢
    intro p hp hcontra
    rw [Bool.and_eq_true] at hcontra
    exact hb p hp hcontra.2
  | true =>
    rw [List.any_eq_true] at hb ⊢
    obtain ⟨p, hp, hpe⟩ := hb
    refine ⟨p, hp, ?_⟩
    have hid : p.id = i := eq_of_beq hpe
    have hc : pids.contains p.id = true := List.elem_iff.mpr (hid ▸ hi)
    rw [Bool.and_eq_true]
    exact ⟨hc, hpe⟩

lemma missing_filter_eq (s : State) (pids : List String) :
    pids.filter (fun i => !(resolvedProducts s pids).any (fun p => p.id == i)) =
      pids.filter (fun i => !s.products.any (fun p => p.id == i)) := by
  apply List.filter_congr
  intro i hi
  rw [resolvedProducts_any s pids i hi]

lemma missing_nil_of_all (s : State) (pids : List String)
    (hall : ∀ i ∈ pids, s.products.any (fun p => p.id == i) = true) :
    (pids.filter (fun i => !(resolvedProducts s pids).any (fun p => p.id == i))).dedup = [] := by
  rw [missing_filter_eq]
  have h : pids.filter (fun i => !s.products.any (fun p => p.id == i)) = [] := by
    rw [List.filter_eq_nil_iff]
    intro i hi
    simp [hall i hi]
  rw [h]
  rfl

lemma createOrder_success (s : State) (input : CreateOrderInput) (now : Int)
    (cNow : Nat)
    (hc : s.customers.any (fun c => c.id == input.customerId) = true)
    (hne : input.productIds ≠ [])
    (hall : ∀ i ∈ input.productIds, s.products.any (fun p => p.id == i) = true) :
    createOrder s input now cNow =
      (⟨s.customers, s.products,
        s.orders ++ [⟨toString s.nextId, input.customerId,
          (resolvedProducts s input.productIds).map (fun p => p.id),
          orderTotal (resolvedProducts s input.productIds),
          input.orderDate.getD now, cNow⟩], s.nextId + 1⟩,
       some ⟨toString s.nextId, input.customerId,
          (resolvedProducts s input.productIds).map (fun p => p.id),
          orderTotal (resolvedProducts s input.productIds),
          input.orderDate.getD now, cNow⟩, []) := by
  obtain ⟨c, hfind, hcid⟩ := customer_found_of_any s input.customerId hc
  have hempty : input.productIds.isEmpty = false := by
    cases hpi : input.productIds with
    | nil => exact absurd hpi hne
    | cons a as => rfl
  have hmiss := missing_nil_of_all s input.productIds hall
  unfold createOrder
  rw [hfind]
  simp only [hempty, hmiss, Bool.false_eq_true, if_false, List.isEmpty_nil, if_true, hcid]

/-! ### C1, C2, C10: CreateOrder -/

/-- Demonstration store for the CreateOrder claims: one customer `"1"`, two
products priced 999.99 and 25.50 (99999 and 2550 hundredths). -/
def orderDemoState : State :=
  ⟨[⟨"1", "Alice", "alice@example.com", none, 0⟩],
   [⟨"10", "A", 99999, 5, 0⟩, ⟨"11", "B", 2550, 5, 0⟩], [], 42⟩

/-- C1: whenever the customer id resolves and every listed product id
resolves, CreateOrder creates the order with `total_amount` equal to the
exact fixed-point decimal sum of the prices of the linked products — the
arithmetic is exact integer arithmetic on hundredths, never binary floating
point; in particular with two products priced 999.99 and 25.50 the total is
exactly 1025.49 (102549 hundredths) and the linked product set is exactly
those two products. -/
theorem c1_createOrder_exact_total :
    (∀ (s : State) (input : CreateOrderInput) (now : Int) (cNow : Nat),
      s.customers.any (fun c => c.id == input.customerId) = true →
      input.productIds ≠ [] →
      (∀ i ∈ input.productIds, s.products.any (fun p => p.id == i) = true) →
      ∃ o : Order,
        createOrder s input now cNow =
          (⟨s.customers, s.products, s.orders ++ [o], s.nextId + 1⟩, some o, []) ∧
        o.totalAmount =
          ((resolvedProducts s input.productIds).map (fun p => p.price)).sum ∧
        o.productIds = (resolvedProducts s input.productIds).map (fun p => p.id)) ∧
    (createOrder orderDemoState ⟨"1", ["10", "11"], none⟩ 0 0).2.1 =
      some ⟨"42", "1", ["10", "11"], 102549, 0, 0⟩ := by
  constructor
  · intro s input now cNow hc hne hall
    refine ⟨_, createOrder_success s input now cNow hc hne hall, ?_, rfl⟩
    show orderTotal _ = _
    rw [orderTotal, List.sum_eq_foldl]
  · decide

/-- Witness for C1: the general theorem applied to the demonstration store,
two products priced 999.99 and 25.50. -/
theorem c1_witness :
    (orderDemoState.customers.any (fun c => c.id == "1") = true) ∧
    ∃ o : Order,
      createOrder orderDemoState ⟨"1", ["10", "11"], none⟩ 0 0 =
        (⟨orderDemoState.customers, orderDemoState.products,
          orderDemoState.orders ++ [o], orderDemoState.nextId + 1⟩, some o, []) ∧
      o.totalAmount =
        ((resolvedProducts orderDemoState ["10", "11"]).map (fun p => p.price)).sum ∧
      o.productIds = (resolvedProducts orderDemoState ["10", "11"]).map (fun p => p.id) :=
  ⟨by decide,
   c1_createOrder_exact_total.1 orderDemoState ⟨"1", ["10", "11"], none⟩ 0 0
     (by decide) (by decide) (by decide)⟩

/-- C2: CreateOrder gates its preconditions sequentially and
short-circuits — an unresolvable customer id yields the single error
`"Invalid customer ID: <id>"` with nothing checked further and nothing
created; otherwise an empty product list yields the single error
`"At least one product must be selected"`; otherwise any unresolvable
product ids yield the single error `"Invalid product ID(s): <ids>"` where
`<ids>` are exactly the missing ids, deduplicated, sorted lexicographically
and comma-joined, and no order, linkage or total is created (the store is
returned unchanged). -/
theorem c2_createOrder_gating :
    (∀ (s : State) (input : CreateOrderInput) (now : Int) (cNow : Nat),
      (∀ c ∈ s.customers, ¬(c.id = input.customerId)) →
      createOrder s input now cNow =
        (s, none, ["Invalid customer ID: " ++ input.customerId])) ∧
    (∀ (s : State) (input : CreateOrderInput) (now : Int) (cNow : Nat),
      s.customers.any (fun c => c.id == input.customerId) = true →
      input.productIds = [] →
      createOrder s input now cNow =
        (s, none, ["At least one product must be selected"])) ∧
    (∀ (s : State) (input : CreateOrderInput) (now : Int) (cNow : Nat),
      s.customers.any (fun c => c.id == input.customerId) = true →
      input.productIds ≠ [] →
      missingIds s input.productIds ≠ [] →
      createOrder s input now cNow =
        (s, none,
         ["Invalid product ID(s): " ++
            commaJoin (sortStrings (missingIds s input.productIds))])) := by
  refine ⟨?_, ?_, ?_⟩
  · intro s input now cNow h
    have hfind : s.customers.find? (fun c => c.id == input.customerId) = none := by
      rw [List.find?_eq_none]
      intro c hc
      simp only [beq_iff_eq]
      exact h c hc
    unfold createOrder
    rw [hfind]
  · intro s input now cNow hc hnil
    obtain ⟨c, hfind, _⟩ := customer_found_of_any s input.customerId hc
    unfold createOrder
    rw [hfind, hnil]
    rfl
  · intro s input now cNow hc hne hmiss
    obtain ⟨c, hfind, _⟩ := customer_found_of_any s input.customerId hc
    have hempty : input.productIds.isEmpty = false := by
      cases hpi : input.productIds with
      | nil => exact absurd hpi hne
      | cons a as => rfl
    have hm : (input.productIds.filter
        (fun i => !(resolvedProducts s input.productIds).any (fun p => p.id == i))).dedup =
        missingIds s input.productIds := by
      rw [missingIds, missing_filter_eq]
    have hmem : (missingIds s input.productIds).isEmpty = false := by
      cases hmi : missingIds s input.productIds with
      | nil => exact absurd hmi hmiss
      | cons a as => rfl
    unfold createOrder
    rw [hfind]
    simp only [hempty, Bool.false_eq_true, if_false, hm, hmem]

/-- Witness for C2: each of the three gates applied to the demonstration
store — an unknown customer id, an empty product list, and two
unresolvable product ids whose error lists them sorted and comma-joined. -/
theorem c2_witness :
    (createOrder orderDemoState ⟨"99", ["10"], none⟩ 0 0 =
      (orderDemoState, none, ["Invalid customer ID: 99"])) ∧
    (createOrder orderDemoState ⟨"1", [], none⟩ 0 0 =
      (orderDemoState, none, ["At least one product must be selected"])) ∧
    (createOrder orderDemoState ⟨"1", ["12", "9", "10", "12"], none⟩ 0 0 =
      (orderDemoState, none,
       ["Invalid product ID(s): " ++
          commaJoin (sortStrings (missingIds orderDemoState ["12", "9", "10", "12"]))])) :=
  ⟨c2_createOrder_gating.1 orderDemoState ⟨"99", ["10"], none⟩ 0 0 (by decide),
   c2_createOrder_gating.2.1 orderDemoState ⟨"1", [], none⟩ 0 0 (by decide) rfl,
   c2_createOrder_gating.2.2 orderDemoState ⟨"1", ["12", "9", "10", "12"], none⟩ 0 0
     (by decide) (by decide) (by decide)⟩

/-- C10: duplicate product ids in the input are harmless — prepending a
duplicate of an already-listed id leaves the whole mutation result
unchanged, and on success the order links the distinct set of referenced
products, with `total_amount` counting each distinct product's price
exactly once (no error is reported for duplicates). -/
theorem c10_createOrder_duplicate_ids :
    (∀ (s : State) (cid : String) (pids : List String) (odt : Option Int)
        (now : Int) (cNow : Nat) (i : String), i ∈ pids →
      createOrder s ⟨cid, i :: pids, odt⟩ now cNow =
        createOrder s ⟨cid, pids, odt⟩ now cNow) ∧
    (∀ (s : State) (input : CreateOrderInput) (now : Int) (cNow : Nat),
      s.customers.any (fun c => c.id == input.customerId) = true →
      input.productIds ≠ [] →
      (∀ i ∈ input.productIds, s.products.any (fun p => p.id == i) = true) →
      (s.products.map (fun p => p.id)).Nodup →
      ∃ o : Order,
        (createOrder s input now cNow).2.1 = some o ∧
        (createOrder s input now cNow).2.2 = [] ∧
        o.productIds.Nodup ∧
        o.totalAmount =
          ((resolvedProducts s input.productIds).map (fun p => p.price)).sum) := by
  constructor
  · intro s cid pids odt now cNow i hi
    have hpne : pids ≠ [] := by
      intro hnil
      rw [hnil] at hi
      exact absurd hi (List.not_mem_nil i)
    have hprod : resolvedProducts s (i :: pids) = resolvedProducts s pids := by
      unfold resolvedProducts
      apply List.filter_congr
      intro p _
      show (i :: pids).contains p.id = pids.contains p.id
      rw [List.contains_cons]
      cases hb : p.id == i with
      | false => rw [Bool.false_or]
      | true =>
        have : pids.contains p.id = true :=
          List.elem_iff.mpr ((eq_of_beq hb) ▸ hi)
        rw [this, Bool.true_or]
    have hempty1 : (i :: pids).isEmpty = false := rfl
    have hempty2 : pids.isEmpty = false := by
      cases hpi : pids with
      | nil => exact absurd hpi hpne
      | cons a as => rfl
    have hdedup : ((i :: pids).filter
        (fun j => !(resolvedProducts s pids).any (fun p => p.id == j))).dedup =
        ((pids.filter (fun j => !(resolvedProducts s pids).any (fun p => p.id == j)))).dedup := by
      rw [List.filter_cons]
      cases hq : !(resolvedProducts s pids).any (fun p => p.id == i) with
      | false => simp only [Bool.false_eq_true, if_false]
      | true =>
        simp only [if_true]
        exact List.dedup_cons_of_mem (List.mem_filter.mpr ⟨hi, hq⟩)
    unfold createOrder
    cases hfind : s.customers.find? (fun c => c.id == cid) with
    | none => rfl
    | some c =>
      simp only [hempty1, hempty2, Bool.false_eq_true, if_false, hprod, hdedup]
  · intro s input now cNow hc hne hall hnd
    have hsucc := createOrder_success s input now cNow hc hne hall
    refine ⟨_, by rw [hsucc], by rw [hsucc], ?_, ?_⟩
    · have hsub :
          ((resolvedProducts s input.productIds).map (fun p => p.id)).Sublist
            (s.products.map (fun p => p.id)) :=
        (List.filter_sublist s.products).map (fun p => p.id)
      exact hnd.sublist hsub
    · show orderTotal _ = _
      rw [orderTotal, List.sum_eq_foldl]

/-- Witness for C10: prepending the duplicate id `"10"` leaves the result
unchanged, and the success clause applied to an input listing `"10"` twice. -/
theorem c10_witness :
    (createOrder orderDemoState ⟨"1", "10" :: ["10", "11"], none⟩ 0 0 =
      createOrder orderDemoState ⟨"1", ["10", "11"], none⟩ 0 0) ∧
    ∃ o : Order,
      (createOrder orderDemoState ⟨"1", ["10", "10", "11"], none⟩ 0 0).2.1 = some o ∧
      (createOrder orderDemoState ⟨"1", ["10", "10", "11"], none⟩ 0 0).2.2 = [] ∧
      o.productIds.Nodup ∧
      o.totalAmount =
        ((resolvedProducts orderDemoState ["10", "10", "11"]).map (fun p => p.price)).sum :=
  ⟨c10_createOrder_duplicate_ids.1 orderDemoState "1" ["10", "11"] none 0 0 "10" (by decide),
   c10_createOrder_duplicate_ids.2 orderDemoState ⟨"1", ["10", "10", "11"], none⟩ 0 0
     (by decide) (by decide) (by decide) (by decide)⟩

/-! ### C3: BulkCreateCustomers -/

/-- C3: the bulk mutation processes elements independently — splitting the
input anywhere splits the outcome: the elements after the split are
processed exactly as they would have been regardless of which earlier
elements failed, successes are accumulated in input order and no earlier
success is rolled back; every error a row contributes is of the form
`"[<0-based index>] <reason>"` with the reason either
`"Email already exists: <email>"` or a field-scoped validation message; a
failing row leaves the store untouched; and on the spec's shape — index 1
invalid, indices 0 and 2 valid — the result is exactly the two entities of
indices 0 and 2 plus the single indexed error for index 1. -/
theorem c3_bulk_partial_success :
    (∀ (oracle : Nat → Bool) (now : Nat) (s : State) (idx : Nat)
        (xs ys : List CreateCustomerInput),
      bulkGo oracle now s idx (xs ++ ys) =
        ((bulkGo oracle now (bulkGo oracle now s idx xs).1 (idx + xs.length) ys).1,
         (bulkGo oracle now s idx xs).2.1 ++
           (bulkGo oracle now (bulkGo oracle now s idx xs).1 (idx + xs.length) ys).2.1,
         (bulkGo oracle now s idx xs).2.2 ++
           (bulkGo oracle now (bulkGo oracle now s idx xs).1 (idx + xs.length) ys).2.2)) ∧
    (∀ (s : State) (idx : Nat) (row : CreateCustomerInput) (b : Bool) (now : Nat)
        (e : String), e ∈ (processRow s idx row b now).2.2 →
      ∃ reason : String,
        e = "[" ++ toString idx ++ "] " ++ reason ∧
          (reason = "Email already exists: " ++ row.email ∨
           ∃ fe ∈ customerFullClean row.name row.email (phoneOrNone row.phone),
             reason = fmtErr fe)) ∧
    (∀ (s : State) (idx : Nat) (row : CreateCustomerInput) (b : Bool) (now : Nat),
      (processRow s idx row b now).2.1 = none → (processRow s idx row b now).1 = s) ∧
    (bulkCreateCustomers ⟨[], [], [], 0⟩
        [⟨"A", "a@x.com", none⟩, ⟨"B", "bad", none⟩, ⟨"C", "c@y.com", none⟩]
        (fun _ => false) 0).2 =
      ([⟨"0", "A", "a@x.com", none, 0⟩, ⟨"1", "C", "c@y.com", none, 0⟩],
       ["[1] " ++ ("email" ++ ": " ++ "Enter a valid email address.")]) := by
  refine ⟨?_, ?_, ?_, by decide⟩
  · intro oracle now s idx xs ys
    induction xs generalizing s idx with
    | nil => simp [bulkGo]
    | cons x xs ih =>
      have harith : idx + (x :: xs).length = idx + 1 + xs.length := by
        simp only [List.length_cons]
        omega
      simp only [List.cons_append, bulkGo, List.append_eq]
      rw [ih, harith]
      cases hr : (processRow s idx x (oracle idx) now).2.1 with
      | none => simp [List.append_assoc]
      | some c => simp [List.append_assoc]
  · intro s idx row b now e he
    unfold processRow at he
    by_cases h1 : emailExists s row.email = true
    · rw [if_pos h1] at he
      rw [List.mem_singleton] at he
      exact ⟨"Email already exists: " ++ row.email, he, Or.inl rfl⟩
    · rw [if_neg h1] at he
      simp only [] at he
      by_cases h2 :
          customerFullClean row.name row.email (phoneOrNone row.phone) = []
      · rw [if_pos h2] at he
        by_cases h3 : b = true
        · rw [if_pos h3] at he
          rw [List.mem_singleton] at he
          exact ⟨"Email already exists: " ++ row.email, he, Or.inl rfl⟩
        · rw [if_neg h3] at he
          exact absurd he (List.not_mem_nil e)
      · rw [if_neg h2] at he
        rw [List.mem_map] at he
        obtain ⟨fe, hfe, hee⟩ := he
        exact ⟨fmtErr fe, hee.symm, Or.inr ⟨fe, hfe, rfl⟩⟩
  · intro s idx row b now h
    unfold processRow at h ⊢
    by_cases h1 : emailExists s row.email = true
    · rw [if_pos h1]
    · rw [if_neg h1] at h ⊢
      simp only [] at h ⊢
      by_cases h2 :
          customerFullClean row.name row.email (phoneOrNone row.phone) = []
      · rw [if_pos h2] at h ⊢
        by_cases h3 : b = true
        · rw [if_pos h3]
        · rw [if_neg h3] at h
          simp at h
      · rw [if_neg h2]

/-- Witness for C3: the split property at a concrete two-plus-one split, the
error-format property at the concrete failing row of index 1, the
no-write property at that row, all on the concrete three-row batch. -/
theorem c3_witness :
    (bulkGo (fun _ => false) 0 ⟨[], [], [], 0⟩ 0
        ([⟨"A", "a@x.com", none⟩, ⟨"B", "bad", none⟩] ++ [⟨"C", "c@y.com", none⟩]) =
      ((bulkGo (fun _ => false) 0
          (bulkGo (fun _ => false) 0 ⟨[], [], [], 0⟩ 0
            [⟨"A", "a@x.com", none⟩, ⟨"B", "bad", none⟩]).1
          (0 + [(⟨"A", "a@x.com", none⟩ : CreateCustomerInput), ⟨"B", "bad", none⟩].length)
          [⟨"C", "c@y.com", none⟩]).1,
       (bulkGo (fun _ => false) 0 ⟨[], [], [], 0⟩ 0
          [⟨"A", "a@x.com", none⟩, ⟨"B", "bad", none⟩]).2.1 ++
         (bulkGo (fun _ => false) 0
            (bulkGo (fun _ => false) 0 ⟨[], [], [], 0⟩ 0
              [⟨"A", "a@x.com", none⟩, ⟨"B", "bad", none⟩]).1
            (0 + [(⟨"A", "a@x.com", none⟩ : CreateCustomerInput), ⟨"B", "bad", none⟩].length)
            [⟨"C", "c@y.com", none⟩]).2.1,
       (bulkGo (fun _ => false) 0 ⟨[], [], [], 0⟩ 0
          [⟨"A", "a@x.com", none⟩, ⟨"B", "bad", none⟩]).2.2 ++
         (bulkGo (fun _ => false) 0
            (bulkGo (fun _ => false) 0 ⟨[], [], [], 0⟩ 0
              [⟨"A", "a@x.com", none⟩, ⟨"B", "bad", none⟩]).1
            (0 + [(⟨"A", "a@x.com", none⟩ : CreateCustomerInput), ⟨"B", "bad", none⟩].length)
            [⟨"C", "c@y.com", none⟩]).2.2)) ∧
    (∃ reason : String,
      "[1] " ++ ("email" ++ ": " ++ "Enter a valid email address.") =
        "[" ++ toString (1 : Nat) ++ "] " ++ reason ∧
        (reason = "Email already exists: " ++ "bad" ∨
         ∃ fe ∈ customerFullClean "B" "bad" (phoneOrNone none),
           reason = fmtErr fe)) ∧
    (processRow ⟨[⟨"0", "A", "a@x.com", none, 0⟩], [], [], 1⟩ 1 ⟨"B", "bad", none⟩
        false 0).1 = ⟨[⟨"0", "A", "a@x.com", none, 0⟩], [], [], 1⟩ :=
  ⟨c3_bulk_partial_success.1 (fun _ => false) 0 ⟨[], [], [], 0⟩ 0
     [⟨"A", "a@x.com", none⟩, ⟨"B", "bad", none⟩] [⟨"C", "c@y.com", none⟩],
   c3_bulk_partial_success.2.1 ⟨[⟨"0", "A", "a@x.com", none, 0⟩], [], [], 1⟩ 1
     ⟨"B", "bad", none⟩ false 0 _ (by decide),
   c3_bulk_partial_success.2.2.1 ⟨[⟨"0", "A", "a@x.com", none, 0⟩], [], [], 1⟩ 1
     ⟨"B", "bad", none⟩ false 0 (by decide)⟩

/-! ### C4: CreateProduct -/

/-- C4: CreateProduct collects all numeric validation errors before any
persistence — a non-positive price together with a negative stock returns
both `"price must be > 0"` and `"stock must be >= 0"`, a null product and
an unchanged store; a non-numeric price is rejected with the distinct
message `"price must be a valid number"`, again with a null product and an
unchanged store. -/
theorem c4_createProduct_collects_errors :
    (∀ (s : State) (name : String) (q : Decimal) (st : Int) (now : Nat),
      q ≤ 0 → st < 0 →
      createProduct s ⟨name, some q, some st⟩ now =
        (s, none, ["price must be > 0", "stock must be >= 0"])) ∧
    (∀ (s : State) (name : String) (st : Option Int) (now : Nat),
      (createProduct s ⟨name, none, st⟩ now).1 = s ∧
      (createProduct s ⟨name, none, st⟩ now).2.1 = none ∧
      "price must be a valid number" ∈ (createProduct s ⟨name, none, st⟩ now).2.2) ∧
    ("price must be a valid number" ≠ "price must be > 0") := by
  refine ⟨?_, ?_, by decide⟩
  · intro s name q st now hq hst
    unfold createProduct
    simp only [Option.getD, if_pos hq, if_pos hst, List.cons_append, List.nil_append]
    rfl
  · intro s name st now
    unfold createProduct
    by_cases hst : st.getD 0 < 0
    · simp only [if_pos hst, List.cons_append, List.nil_append]
      exact ⟨rfl, rfl, List.mem_cons_self _ _⟩
    · simp only [if_neg hst, List.cons_append, List.nil_append, List.append_nil]
      exact ⟨rfl, rfl, List.mem_cons_self _ _⟩

/-- Witness for C4: price −5.00 (−500 hundredths) and stock −3 produce both
messages together with no write. -/
theorem c4_witness :
    ((-500 : Decimal) ≤ 0) ∧ ((-3 : Int) < 0) ∧
    createProduct ⟨[], [], [], 0⟩ ⟨"P", some (-500), some (-3)⟩ 0 =
      (⟨[], [], [], 0⟩, none, ["price must be > 0", "stock must be >= 0"]) :=
  ⟨by decide, by decide,
   c4_createProduct_collects_errors.1 ⟨[], [], [], 0⟩ "P" (-500) (-3) 0
     (by decide) (by decide)⟩

/-! ### C5: CreateCustomer -/

/-- C5: an input whose email already exists under case-insensitive
comparison is rejected with the single error `"Email already exists"`, a
null customer and an unchanged store, with no further checks (the result is
the same whatever the validation outcome would be); a store-level
uniqueness rejection raised on save is reported identically; a valid input
with a fresh email creates the customer and returns it with the message
`"Customer created"`. -/
theorem c5_createCustomer_uniqueness :
    (∀ (s : State) (input : CreateCustomerInput) (b : Bool) (now : Nat),
      emailExists s input.email = true →
      createCustomer s input b now =
        (s, ⟨none, "Failed", ["Email already exists"]⟩)) ∧
    (∀ (s : State) (input : CreateCustomerInput) (now : Nat),
      emailExists s input.email = false →
      customerFullClean input.name input.email (phoneOrNone input.phone) = [] →
      createCustomer s input true now =
        (s, ⟨none, "Failed", ["Email already exists"]⟩)) ∧
    (∀ (s : State) (input : CreateCustomerInput) (now : Nat),
      emailExists s input.email = false →
      customerFullClean input.name input.email (phoneOrNone input.phone) = [] →
      ∃ c : Customer,
        createCustomer s input false now =
          (⟨s.customers ++ [c], s.products, s.orders, s.nextId + 1⟩,
           ⟨some c, "Customer created", []⟩)) := by
  refine ⟨?_, ?_, ?_⟩
  · intro s input b now h
    unfold createCustomer
    rw [if_pos h]
  · intro s input now h hv
    unfold createCustomer
    simp [h, hv]
  · intro s input now h hv
    refine ⟨⟨toString s.nextId, input.name, input.email, phoneOrNone input.phone, now⟩, ?_⟩
    unfold createCustomer
    simp [h, hv]

/-- Witness for C5: a store holding `A@X.com` rejects `a@x.COM` whatever the
oracle says; a fresh valid email is rejected identically when the store
raises the uniqueness constraint on save, and is created with
`"Customer created"` when it does not. -/
theorem c5_witness :
    (createCustomer ⟨[⟨"0", "A", "A@X.com", none, 0⟩], [], [], 1⟩
        ⟨"B", "a@x.COM", none⟩ false 0 =
      (⟨[⟨"0", "A", "A@X.com", none, 0⟩], [], [], 1⟩,
       ⟨none, "Failed", ["Email already exists"]⟩)) ∧
    (createCustomer ⟨[⟨"0", "A", "A@X.com", none, 0⟩], [], [], 1⟩
        ⟨"B", "b@y.com", none⟩ true 0 =
      (⟨[⟨"0", "A", "A@X.com", none, 0⟩], [], [], 1⟩,
       ⟨none, "Failed", ["Email already exists"]⟩)) ∧
    ∃ c : Customer,
      createCustomer ⟨[⟨"0", "A", "A@X.com", none, 0⟩], [], [], 1⟩
          ⟨"B", "b@y.com", none⟩ false 0 =
        (⟨[⟨"0", "A", "A@X.com", none, 0⟩] ++ [c], [], [], 1 + 1⟩,
         ⟨some c, "Customer created", []⟩) :=
  ⟨c5_createCustomer_uniqueness.1 ⟨[⟨"0", "A", "A@X.com", none, 0⟩], [], [], 1⟩
     ⟨"B", "a@x.COM", none⟩ false 0 (by decide),
   c5_createCustomer_uniqueness.2.1 ⟨[⟨"0", "A", "A@X.com", none, 0⟩], [], [], 1⟩
     ⟨"B", "b@y.com", none⟩ 0 (by decide) (by decide),
   c5_createCustomer_uniqueness.2.2 ⟨[⟨"0", "A", "A@X.com", none, 0⟩], [], [], 1⟩
     ⟨"B", "b@y.com", none⟩ 0 (by decide) (by decide)⟩

/-! ### C6: unknown sort keys are ignored -/

/-- C6: for every filter and every sort-key string outside the entity's
safelist, each resolver returns the same list as the same query with no
sort key at all — the unknown key is silently ignored, leaving the result
in its default order. -/
theorem c6_unknown_sort_key_ignored :
    (∀ (s : State) (f : Option CustomerFilterArgs) (k : String),
      CUSTOMER_ORDERABLE.contains k = false →
      resolveAllCustomers s f (some k) = resolveAllCustomers s f none) ∧
    (∀ (s : State) (f : Option ProductFilterArgs) (k : String),
      PRODUCT_ORDERABLE.contains k = false →
      resolveAllProducts s f (some k) = resolveAllProducts s f none) ∧
    (∀ (s : State) (f : Option OrderFilterArgs) (k : String),
      ORDER_ORDERABLE.contains k = false →
      resolveAllOrders s f (some k) = resolveAllOrders s f none) := by
  refine ⟨?_, ?_, ?_⟩
  · intro s f k h
    unfold resolveAllCustomers
    simp only [h, Bool.false_eq_true, if_false]
  · intro s f k h
    unfold resolveAllProducts
    simp only [h, Bool.false_eq_true, if_false]
  · intro s f k h
    unfold resolveAllOrders
    simp only [h, Bool.false_eq_true, if_false]

/-- Witness for C6: the unknown key `"id"` is ignored by all three
resolvers on a small store. -/
theorem c6_witness :
    (resolveAllCustomers ⟨[⟨"0", "B", "b@x.com", none, 0⟩, ⟨"1", "A", "a@x.com", none, 0⟩],
        [], [], 2⟩ none (some "id") =
      resolveAllCustomers ⟨[⟨"0", "B", "b@x.com", none, 0⟩, ⟨"1", "A", "a@x.com", none, 0⟩],
        [], [], 2⟩ none none) ∧
    (resolveAllProducts ⟨[], [⟨"0", "B", 2, 1, 0⟩, ⟨"1", "A", 1, 1, 0⟩], [], 2⟩
        none (some "id") =
      resolveAllProducts ⟨[], [⟨"0", "B", 2, 1, 0⟩, ⟨"1", "A", 1, 1, 0⟩], [], 2⟩
        none none) ∧
    (resolveAllOrders ⟨[], [], [⟨"0", "9", [], 2, 5, 0⟩, ⟨"1", "9", [], 1, 3, 0⟩], 2⟩
        none (some "id") =
      resolveAllOrders ⟨[], [], [⟨"0", "9", [], 2, 5, 0⟩, ⟨"1", "9", [], 1, 3, 0⟩], 2⟩
        none none) :=
  ⟨c6_unknown_sort_key_ignored.1 _ none "id" (by decide),
   c6_unknown_sort_key_ignored.2.1 _ none "id" (by decide),
   c6_unknown_sort_key_ignored.2.2 _ none "id" (by decide)⟩

/-! ### C7: product filters deduplicate -/

lemma mem_filterJoinDistinct (s : State) (qs : List Order) (pred : Product → Bool)
    (o : Order) :
    o ∈ filterJoinDistinct s qs pred ↔
      o ∈ qs ∧ ∃ p ∈ linkedProducts s o, pred p = true := by
  unfold filterJoinDistinct
  rw [List.mem_dedup, List.mem_flatMap]
  constructor
  · rintro ⟨o2, ho2, hmem⟩
    rw [List.mem_map] at hmem
    obtain ⟨p, hp, he⟩ := hmem
    rw [List.mem_filter] at hp
    subst he
    exact ⟨ho2, p, hp.1, hp.2⟩
  · rintro ⟨ho, p, hp, hpred⟩
    exact ⟨o, ho, List.mem_map.mpr ⟨p, List.mem_filter.mpr ⟨hp, hpred⟩, rfl⟩⟩

lemma resolveAllOrders_productName (s : State) (v : String) (hv : ¬(v = "")) :
    resolveAllOrders s (some ⟨none, none, none, none, none, some v, none⟩) none =
      filterJoinDistinct s s.orders (fun p => icontains p.name v) := by
  unfold resolveAllOrders
  simp [truthyStr, hv]

lemma resolveAllOrders_productId (s : State) (v : String) (hv : ¬(v = "")) :
    resolveAllOrders s (some ⟨none, none, none, none, none, none, some v⟩) none =
      filterJoinDistinct s s.orders (fun p => p.id == v) := by
  unfold resolveAllOrders
  simp [truthyStr, hv]

/-- C7: filtering orders by product-name contains, or by product-id equals,
returns each matching order exactly once — the result has no duplicates
even when an order is linked to several products that each satisfy the
predicate, and an order is in the result precisely when it is stored and
some linked product matches. -/
theorem c7_product_filters_deduplicate :
    (∀ (s : State) (v : String), ¬(v = "") →
      (resolveAllOrders s (some ⟨none, none, none, none, none, some v, none⟩) none).Nodup ∧
      ∀ o : Order,
        o ∈ resolveAllOrders s (some ⟨none, none, none, none, none, some v, none⟩) none ↔
          o ∈ s.orders ∧ ∃ p ∈ linkedProducts s o, icontains p.name v = true) ∧
    (∀ (s : State) (v : String), ¬(v = "") →
      (resolveAllOrders s (some ⟨none, none, none, none, none, none, some v⟩) none).Nodup ∧
      ∀ o : Order,
        o ∈ resolveAllOrders s (some ⟨none, none, none, none, none, none, some v⟩) none ↔
          o ∈ s.orders ∧ ∃ p ∈ linkedProducts s o, p.id = v) := by
  constructor
  · intro s v hv
    rw [resolveAllOrders_productName s v hv]
    refine ⟨List.nodup_dedup _, ?_⟩
    intro o
    exact mem_filterJoinDistinct s s.orders (fun p => icontains p.name v) o
  · intro s v hv
    rw [resolveAllOrders_productId s v hv]
    refine ⟨List.nodup_dedup _, ?_⟩
    intro o
    rw [mem_filterJoinDistinct s s.orders (fun p => p.id == v) o]
    constructor
    · rintro ⟨ho, p, hp, hpe⟩
      exact ⟨ho, p, hp, eq_of_beq hpe⟩
    · rintro ⟨ho, p, hp, hpe⟩
      exact ⟨ho, p, hp, beq_iff_eq.mpr hpe⟩

/-- Witness for C7: an order linked to two products both named like
`"Laptop"` appears exactly once when filtering by name contains `"lap"`
and when filtering by a shared product id. -/
theorem c7_witness :
    ((resolveAllOrders ⟨[], [⟨"10", "Laptop", 1, 1, 0⟩, ⟨"11", "Laptop Pro", 1, 1, 0⟩],
        [⟨"20", "1", ["10", "11"], 2, 0, 0⟩], 1⟩
        (some ⟨none, none, none, none, none, some "lap", none⟩) none).Nodup ∧
      ∀ o : Order,
        o ∈ resolveAllOrders ⟨[], [⟨"10", "Laptop", 1, 1, 0⟩, ⟨"11", "Laptop Pro", 1, 1, 0⟩],
            [⟨"20", "1", ["10", "11"], 2, 0, 0⟩], 1⟩
            (some ⟨none, none, none, none, none, some "lap", none⟩) none ↔
          o ∈ [(⟨"20", "1", ["10", "11"], 2, 0, 0⟩ : Order)] ∧
            ∃ p ∈ linkedProducts ⟨[], [⟨"10", "Laptop", 1, 1, 0⟩, ⟨"11", "Laptop Pro", 1, 1, 0⟩],
                [⟨"20", "1", ["10", "11"], 2, 0, 0⟩], 1⟩ o,
              icontains p.name "lap" = true) :=
  c7_product_filters_deduplicate.1
    ⟨[], [⟨"10", "Laptop", 1, 1, 0⟩, ⟨"11", "Laptop Pro", 1, 1, 0⟩],
     [⟨"20", "1", ["10", "11"], 2, 0, 0⟩], 1⟩ "lap" (by decide)

/-! ### C8: weekly report aggregate -/

lemma revenue_foldl (l : List ReportOrder) (a : Decimal) :
    l.foldl
        (fun acc o =>
          match o.totalAmount with
          | some v => acc + v
          | none => acc)
        a =
      a + (l.filterMap (fun o => o.totalAmount)).sum := by
  induction l generalizing a with
  | nil => simp
  | cons x xs ih =>
    cases hx : x.totalAmount with
    | none => simp [List.foldl_cons, hx, ih, List.filterMap_cons]
    | some v =>
      simp only [List.foldl_cons, hx, ih, List.filterMap_cons, List.sum_cons]
      ring

/-- C8: the weekly report sums every order's total amount into a numeric
accumulator, skipping any value that fails numeric coercion instead of
failing the aggregate — inserting a non-coercible row changes the revenue
not at all while still being counted as an order — and the reported
customer and order counts equal the lengths of the returned lists. -/
theorem c8_report_aggregate :
    (∀ (cs : List String) (os : List ReportOrder),
      generateCrmReport cs os =
        ⟨cs.length, os.length, (os.filterMap (fun o => o.totalAmount)).sum⟩) ∧
    (∀ (pre post : List ReportOrder) (bad : ReportOrder) (cs : List String),
      bad.totalAmount = none →
      (generateCrmReport cs (pre ++ bad :: post)).totalRevenue =
          (generateCrmReport cs (pre ++ post)).totalRevenue ∧
        (generateCrmReport cs (pre ++ bad :: post)).totalOrders =
          pre.length + post.length + 1) := by
  have hrev : ∀ os : List ReportOrder,
      reportRevenue os = (os.filterMap (fun o => o.totalAmount)).sum := by
    intro os
    unfold reportRevenue
    rw [revenue_foldl]
    ring
  constructor
  · intro cs os
    unfold generateCrmReport
    rw [hrev]
  · intro pre post bad cs hbad
    refine ⟨?_, ?_⟩
    · show reportRevenue _ = reportRevenue _
      rw [hrev, hrev, List.filterMap_append, List.filterMap_append,
        List.filterMap_cons, hbad]
    · show (pre ++ bad :: post).length = pre.length + post.length + 1
      simp only [List.length_append, List.length_cons]
      omega

/-- Witness for C8: a batch of three orders whose middle value fails float
coercion contributes revenue from the two coercible rows only, while the
order count still counts all three. -/
theorem c8_witness :
    (generateCrmReport ["1"] ([⟨some 1000⟩] ++ (⟨none⟩ : ReportOrder) :: [⟨some 2550⟩])).totalRevenue =
        (generateCrmReport ["1"] ([⟨some 1000⟩] ++ [⟨some 2550⟩])).totalRevenue ∧
      (generateCrmReport ["1"] ([⟨some 1000⟩] ++ (⟨none⟩ : ReportOrder) :: [⟨some 2550⟩])).totalOrders =
        [(⟨some 1000⟩ : ReportOrder)].length + [(⟨some 2550⟩ : ReportOrder)].length + 1 :=
  c8_report_aggregate.2 [⟨some 1000⟩] [⟨some 2550⟩] ⟨none⟩ ["1"] rfl

/-! ### C9: background jobs and transport faults -/

/-- C9 counterexample: the order-reminder script does not catch a transport
fault — on an erroring query it appends nothing to its reminder log, prints
the error to stderr, and re-raises the exception to its caller, refuting
the claim that every background collaborator logs the fault and returns
without raising. -/
theorem c9_counterexample :
    (sendOrderReminders "2026-01-01 00:00:00" (Except.error "TransportError")).raised =
        some "TransportError" ∧
      (sendOrderReminders "2026-01-01 00:00:00" (Except.error "TransportError")).logLines = [] ∧
      (sendOrderReminders "2026-01-01 00:00:00" (Except.error "TransportError")).stderrLines =
        ["ERROR: " ++ "TransportError"] :=
  ⟨rfl, rfl, rfl⟩

/-- C9 (amended): on any fault of their single query/mutation call, the
heartbeat, the low-stock restock job and the weekly report each append a
distinguishable error line to their log and return without raising; the
order-reminder script instead appends nothing to its reminder log, prints
`ERROR: <fault>` to stderr, and re-raises the fault to its caller. -/
theorem c9_fault_handling_amended :
    ∀ ts e : String,
      (logCrmHeartbeat ts (Except.error e)).raised = none ∧
      (logCrmHeartbeat ts (Except.error e)).logLines =
        [ts ++ " CRM is alive" ++ (" | GraphQL: ERR " ++ e)] ∧
      (updateLowStock ts (Except.error e)).raised = none ∧
      (updateLowStock ts (Except.error e)).logLines =
        ["[" ++ ts ++ "] ERROR: " ++ e] ∧
      (generateCrmReportJob ts (Except.error e)).raised = none ∧
      (generateCrmReportJob ts (Except.error e)).logLines =
        [ts ++ " - Report ERROR: " ++ e] ∧
      (sendOrderReminders ts (Except.error e)).raised = some e ∧
      (sendOrderReminders ts (Except.error e)).logLines = [] ∧
      (sendOrderReminders ts (Except.error e)).stderrLines = ["ERROR: " ++ e] :=
  fun _ _ => ⟨rfl, rfl, rfl, rfl, rfl, rfl, rfl, rfl, rfl⟩

end Crm
